import Mathlib

/-!
Verification of the QIR (Query Intermediate Representation) toolchain.

This file is a shallow embedding, in Lean 4, of the Python package `qir`
(files `qir/base.py`, `qir/values.py`, `qir/lists.py`, `qir/tuples.py`,
`qir/functions.py`, `qir/operators.py`, `qir/algebra.py`, `qir/specials.py`,
`qir/utils.py`, `qir/decompile.py`).  Every definition is translated from the
source; comments point at the translated function and record the Python
behaviours (exception classes, evaluation order, object identity) that the
translation preserves.

Two expression models are used:

* `Exp` is the structural tree of QIR expressions.  It backs the encoder and
  decoder (`utils.encode` / `decode`), the serializer (`utils.serialize`),
  the local and orchestrated evaluators (`Expression.evaluate_locally` /
  `Expression.evaluate`), and the `CALL_FUNCTION` step of the bytecode
  executor.
* `PExp` additionally carries a Python object id on every node.  Python's
  `==` on `Expression` instances is object identity (the class defines no
  `__eq__`), and the decompiler's predecessor-stack reconciliation and the
  `TupleDestr` key lookup both compare expressions with `==`; `PExp` makes
  that identity observable.
-/

/-- The exceptions the modelled code can raise.  `typeError`,
`attributeError`, `indexError` and `zeroDivisionError` are Python built-ins;
the rest are the classes of `qir/errors.py` and
`qir/decompile.py` (`PredecessorStacksError`).  `shapeError` is named by the
specification only: no code path produces it (there is no such class in the
source), and it is included so that statements about it can be written down.
`outOfFuel` is a modelling artefact: the local evaluator need not terminate
(the Y combinator), so it is driven by a fuel parameter. -/
inductive PyErr where
  | typeError
  | attributeError
  | indexError
  | zeroDivisionError
  | notYetImplemented
  | notUnserializable
  | notSerializable
  | notRemotelyEvaluable
  | notLocallyEvaluable
  | notDecodable
  | notEncodable
  | predecessorStacks
  | shapeError
  | outOfFuel
deriving DecidableEq, Repr

/-- The payload of a `Native` node (`specials.py`): an arbitrary host object.
`func` marks objects for which `isinstance(value, types.FunctionType)` holds,
`builtin` the built-in functions (`types.BuiltinFunctionType`, which is a
distinct type from `FunctionType`), `obj` everything else.  The `Nat` is the
object's identity. -/
inductive NativeVal where
  | obj (id : Nat)
  | func (id : Nat)
  | builtin (id : Nat)
deriving DecidableEq, Repr

/-- Host (Python) values as far as the encoder, decoder and the algebraic
operators see them: `None`, `bool`, `int`, `float`, `str`, `list`, `tuple`
and `dict`, plus opaque natives (the payload of `Native.decode`).  A `float`
is modelled by the exact rational it denotes; every theorem below evaluates
floats only on inputs where Python's binary64 arithmetic is exact. -/
inductive HostValue where
  | none
  | bool (b : Bool)
  | int (n : Int)
  | float (q : ℚ)
  | str (s : String)
  | list (xs : List HostValue)
  | tuple (xs : List HostValue)
  | dict (entries : List (HostValue × HostValue))
  | native (v : NativeVal)
deriving Repr

set_option maxHeartbeats 1600000 in
/-- QIR expression trees: one constructor per concrete `Expression` subclass
of the source, with the payloads declared by its `fields` descriptor.
Field shapes that name a specific class (`Lambda.parameter : Identifier`,
`Table.database : Database`) are relaxed to `Exp` here; the construction-time
shape checking of `Expression.__init__` is modelled separately by
`constructExpr` below.  `Builtin.function` (a `BuiltinFunctionType`) and
`Bytecode.code` (a `CodeType`) are opaque host objects, modelled by their
identity. -/
inductive Exp where
  | Null
  | Number (value : Int)
  | Double (value : ℚ)
  | String (value : String)
  | Boolean (value : Bool)
  | ListNil
  | ListCons (head tail : Exp)
  | ListDestr (input on_nil on_cons : Exp)
  | TupleNil
  | TupleCons (key value tail : Exp)
  | TupleDestr (input key : Exp)
  | Identifier (name : String)
  | Lambda (parameter body : Exp)
  | Fixed
  | Application (function argument : Exp)
  | Conditional (condition on_true on_false : Exp)
  | Scan (table : Exp)
  | Filter (filter input : Exp)
  | Project (format input : Exp)
  | Sort (rows ascending input : Exp)
  | Limit (limit input : Exp)
  | Group (rows input : Exp)
  | Join (filter left right : Exp)
  | Not (element : Exp)
  | Div (left right : Exp)
  | Minus (left right : Exp)
  | Mod (left right : Exp)
  | Plus (left right : Exp)
  | Star (left right : Exp)
  | Power (left right : Exp)
  | And (left right : Exp)
  | Or (left right : Exp)
  | Equal (left right : Exp)
  | LowerOrEqual (left right : Exp)
  | LowerThan (left right : Exp)
  | GreaterOrEqual (left right : Exp)
  | GreaterThan (left right : Exp)
  | Native (value : NativeVal)
  | Builtin (module name : String) (function : Nat)
  | Bytecode (code : Nat)
  | Database (driver name host : String) (port : Int) (username password : String)
  | Table (database : Exp) (name : String)
deriving DecidableEq, Repr

/-- A Python value that QIR evaluation and encoding can produce: either an
`Expression` instance, or the class object `values.Null` itself.  The source
repeatedly writes `return Null` / `return values.Null` (without parentheses),
returning the class rather than an instance (`utils.encode` for `None`,
`TupleDestr.evaluate_locally`), so the class object has to be representable. -/
inductive HostObj where
  | expr (e : Exp)
  | nullClass
deriving DecidableEq, Repr

/-- `Expression.__init__` checks `isinstance(argument, base.Expression)` for
expression-shaped fields; the class object `values.Null` is not an instance
of `Expression` (it is a type), so passing it to a constructor raises
`TypeError`. -/
def asExprE : HostObj → Except PyErr Exp
  | .expr e => .ok e
  | .nullClass => .error .typeError

/-! ## Encoding host values (`utils.encode`, `utils.encode_dict`,
`utils.encode_list`) -/

mutual

/-- `utils.encode`.  The `isinstance` dispatch order of the source is kept:
`None`, `bool` (before `int`, since `bool` is a subclass of `int`), `int`,
`float`, `str` (before the iterable case, since strings are iterable),
`dict`, then any other iterable (`list` and `tuple` here); anything else
raises `TypeError`.  For `None` the source returns the *class* `Null`, not
an instance (`return Null`). -/
def encode : HostValue → Except PyErr HostObj
  | .none => .ok .nullClass
  | .bool b => .ok (.expr (.Boolean b))
  | .int n => .ok (.expr (.Number n))
  | .float q => .ok (.expr (.Double q))
  | .str s => .ok (.expr (.String s))
  | .dict entries => do
      let e ← encode_dict Exp.TupleNil entries
      pure (.expr e)
  | .list xs => do
      let e ← encode_list Exp.ListNil xs
      pure (.expr e)
  | .tuple xs => do
      let e ← encode_list Exp.ListNil xs
      pure (.expr e)
  | .native _ => .error .typeError

/-- The loop of `utils.encode_dict`: `inner` starts as `TupleNil()` and each
iteration step executes `inner = TupleCons(String(key), encode(source[key]),
inner)`; iteration follows the dict's insertion order, so the *last* entry
ends at the head.  `String(key)` shape-checks the key (`TypeError` unless it
is a `str`), and `TupleCons(...)` shape-checks the encoded value (`TypeError`
if `encode` returned the class `Null`). -/
def encode_dict (inner : Exp) : List (HostValue × HostValue) → Except PyErr Exp
  | [] => .ok inner
  | (k, v) :: rest => do
      let ks ← match k with
        | .str s => pure s
        | _ => Except.error PyErr.typeError
      let hv ← encode v
      let he ← asExprE hv
      encode_dict (Exp.TupleCons (Exp.String ks) he inner) rest

/-- The loop of `utils.encode_list`: `inner` starts as `ListNil()` and each
iteration step executes `inner = ListCons(encode(value), inner)`, so the
*first* element of the source list ends at the *bottom* (the resulting QIR
list is the reverse of the host list).  `ListCons(...)` shape-checks the
encoded head (`TypeError` if `encode` returned the class `Null`). -/
def encode_list (inner : Exp) : List HostValue → Except PyErr Exp
  | [] => .ok inner
  | v :: vs => do
      let hv ← encode v
      let he ← asExprE hv
      encode_list (Exp.ListCons he inner) vs

end

/-! ## Python `==` on host values (needed by dict item assignment) -/

mutual

/-- Python `==` on the host values above: `None` equals only `None`; `bool`,
`int` and `float` compare numerically across types (`True == 1`,
`1 == 1.0`); strings compare by content; lists and tuples compare
element-wise against the same type only; dicts compare as key/value sets,
ignoring insertion order (keys in a Python dict are unique, so checking that
both dicts have the same length and that every pair of the first occurs in
the second suffices); opaque natives compare by identity (default
`object.__eq__`). -/
def hostEqB (a b : HostValue) : Bool :=
  match a, b with
  | .bool x, .bool y => x == y
  | .bool x, .int n => (if x then (1 : Int) else 0) == n
  | .bool x, .float q => ((if x then (1 : ℚ) else 0) : ℚ) == q
  | .int n, .bool y => n == (if y then (1 : Int) else 0)
  | .int n, .int m => n == m
  | .int n, .float q => ((n : ℚ)) == q
  | .float q, .bool y => q == ((if y then (1 : ℚ) else 0) : ℚ)
  | .float q, .int m => q == ((m : ℚ))
  | .float q, .float r => q == r
  | .none, .none => true
  | .str x, .str y => x == y
  | .native x, .native y => x == y
  | .list xs, .list ys => hostListEqB xs ys
  | .tuple xs, .tuple ys => hostListEqB xs ys
  | .dict xs, .dict ys => xs.length == ys.length && hostDictSubB xs ys
  | _, _ => false
termination_by sizeOf a + sizeOf b
decreasing_by all_goals (simp_wf <;> omega)

/-- Python `==` on lists/tuples: equal length and element-wise `==`. -/
def hostListEqB : List HostValue → List HostValue → Bool
  | [], [] => true
  | x :: xs, y :: ys => hostEqB x y && hostListEqB xs ys
  | _, _ => false
termination_by xs ys => sizeOf xs + sizeOf ys
decreasing_by all_goals (simp_wf <;> omega)

/-- Every pair of the first dict occurs (key and value both `==`) in the
second. -/
def hostDictSubB : List (HostValue × HostValue) → List (HostValue × HostValue) → Bool
  | [], _ => true
  | (k, v) :: rest, ys => hostDictMatchB k v ys && hostDictSubB rest ys
termination_by xs ys => sizeOf xs + sizeOf ys
decreasing_by all_goals (simp_wf <;> omega)

/-- Some pair of `ys` has key `== k` and value `== v`. -/
def hostDictMatchB (k v : HostValue) : List (HostValue × HostValue) → Bool
  | [] => false
  | (k0, v0) :: ys => (hostEqB k0 k && hostEqB v0 v) || hostDictMatchB k v ys
termination_by ys => sizeOf k + sizeOf v + sizeOf ys
decreasing_by all_goals (simp_wf <;> omega)

end

/-- Python dict item assignment `d[k] = v` on the association-list model:
if a key `== k` is present, its value is replaced in place (the stored key
object is kept); otherwise the new pair is appended (insertion order). -/
def dictSet : List (HostValue × HostValue) → HostValue → HostValue →
    List (HostValue × HostValue)
  | [], k, v => [(k, v)]
  | (k0, v0) :: rest, k, v =>
      if hostEqB k0 k then (k0, v) :: rest else (k0, v0) :: dictSet rest k v

/-! ## Decoding (`utils.decode` and the per-class `decode` methods) -/

/-- The per-class `decode` methods, dispatched over an `Expression` instance.

* Values (`values.py`): `Null().decode()` is `None`; the others return their
  payload.
* `ListNil.decode` returns the empty *tuple* `()` (`lists.py`).
* `ListCons.decode` executes `(self.head().decode(),) + self.tail().decode()`
  — it *calls* `self.head`, but `self.head` is an `Expression` instance and
  `Expression` defines no `__call__`, so this raises `TypeError`
  unconditionally.
* `TupleNil.decode` returns the empty dict; `TupleCons.decode` decodes the
  tail, then executes `decoded[self.key.decode()] = self.value.decode()`
  (Python evaluates the assignment's right-hand side before the subscript
  expressions, hence the order tail, value, key below); if the decoded tail
  is not a dict the item assignment raises `TypeError`.
* `Native.decode` returns the wrapped host object.
* Every other class inherits `Expression.decode`, which executes
  `raise errors.NotDecodableError`; `NotDecodableError` does not derive from
  `BaseException` (`errors.py` declares it with no base class), so the
  `raise` statement itself raises `TypeError`. -/
def decodeExp : Exp → Except PyErr HostValue
  | .Null => .ok .none
  | .Boolean b => .ok (.bool b)
  | .Number n => .ok (.int n)
  | .Double q => .ok (.float q)
  | .String s => .ok (.str s)
  | .ListNil => .ok (.tuple [])
  | .ListCons _ _ => .error .typeError
  | .TupleNil => .ok (.dict [])
  | .TupleCons k v t => do
      let dt ← decodeExp t
      let dv ← decodeExp v
      let dk ← decodeExp k
      match dt with
      | .dict es => .ok (.dict (dictSet es dk dv))
      | _ => .error .typeError
  | .Native v => .ok (.native v)
  | _ => .error .typeError

/-- `utils.decode(expression)` is `expression.decode()`.  When `encode` has
produced the class object `Null` (rather than an instance), `Null.decode()`
is an unbound function called without its `self` argument, which raises
`TypeError`. -/
def decode : HostObj → Except PyErr HostValue
  | .expr e => decodeExp e
  | .nullClass => .error .typeError

/-! ## Serialisation (`utils.serialize`) -/

/-- Exception propagation of two sequential statements: if the first raised,
the second is not reached.  (Both arguments here are already-computed pure
results, so combining them after the fact yields the same value as Python's
sequential execution.) -/
def ser2 (x y : Except PyErr Unit) : Except PyErr Unit :=
  match x with
  | .ok _ => y
  | .error err => .error err

/-- The recursive `aux` of `utils.serialize`, with the protobuf message
construction abstracted away (the wire format is an external collaborator;
only the traversal's exception behaviour is modelled).  `aux` raises
`NotSerializableError` as soon as it reaches an `UnserializableExpression` —
`Native` is the only such class — and otherwise recurses into every
`Expression`-valued field (no field of any class is flagged as skipped: the
only three-element field descriptor, `Builtin.function`, carries the flag
`False`); fields holding host primitives are copied into the message and
cannot fail here. -/
def serialize : Exp → Except PyErr Unit
  | .Native _ => .error .notSerializable
  | .ListCons head tail => ser2 (serialize head) (serialize tail)
  | .ListDestr input on_nil on_cons =>
      ser2 (serialize input) (ser2 (serialize on_nil) (serialize on_cons))
  | .TupleCons key value tail =>
      ser2 (serialize key) (ser2 (serialize value) (serialize tail))
  | .TupleDestr input key => ser2 (serialize input) (serialize key)
  | .Lambda parameter body => ser2 (serialize parameter) (serialize body)
  | .Application function argument => ser2 (serialize function) (serialize argument)
  | .Conditional condition on_true on_false =>
      ser2 (serialize condition) (ser2 (serialize on_true) (serialize on_false))
  | .Scan table => serialize table
  | .Filter filter input => ser2 (serialize filter) (serialize input)
  | .Project format input => ser2 (serialize format) (serialize input)
  | .Sort rows ascending input =>
      ser2 (serialize rows) (ser2 (serialize ascending) (serialize input))
  | .Limit limit input => ser2 (serialize limit) (serialize input)
  | .Group rows input => ser2 (serialize rows) (serialize input)
  | .Join filter left right =>
      ser2 (serialize filter) (ser2 (serialize left) (serialize right))
  | .Not element => serialize element
  | .Div left right => ser2 (serialize left) (serialize right)
  | .Minus left right => ser2 (serialize left) (serialize right)
  | .Mod left right => ser2 (serialize left) (serialize right)
  | .Plus left right => ser2 (serialize left) (serialize right)
  | .Star left right => ser2 (serialize left) (serialize right)
  | .Power left right => ser2 (serialize left) (serialize right)
  | .And left right => ser2 (serialize left) (serialize right)
  | .Or left right => ser2 (serialize left) (serialize right)
  | .Equal left right => ser2 (serialize left) (serialize right)
  | .LowerOrEqual left right => ser2 (serialize left) (serialize right)
  | .LowerThan left right => ser2 (serialize left) (serialize right)
  | .GreaterOrEqual left right => ser2 (serialize left) (serialize right)
  | .GreaterThan left right => ser2 (serialize left) (serialize right)
  | .Table database _ => serialize database
  | _ => .ok ()

/-- Whether a tree contains a `Native` node somewhere. -/
def containsNative : Exp → Bool
  | .Native _ => true
  | .ListCons head tail => containsNative head || containsNative tail
  | .ListDestr input on_nil on_cons =>
      containsNative input || containsNative on_nil || containsNative on_cons
  | .TupleCons key value tail =>
      containsNative key || containsNative value || containsNative tail
  | .TupleDestr input key => containsNative input || containsNative key
  | .Lambda parameter body => containsNative parameter || containsNative body
  | .Application function argument => containsNative function || containsNative argument
  | .Conditional condition on_true on_false =>
      containsNative condition || containsNative on_true || containsNative on_false
  | .Scan table => containsNative table
  | .Filter filter input => containsNative filter || containsNative input
  | .Project format input => containsNative format || containsNative input
  | .Sort rows ascending input =>
      containsNative rows || containsNative ascending || containsNative input
  | .Limit limit input => containsNative limit || containsNative input
  | .Group rows input => containsNative rows || containsNative input
  | .Join filter left right =>
      containsNative filter || containsNative left || containsNative right
  | .Not element => containsNative element
  | .Div left right => containsNative left || containsNative right
  | .Minus left right => containsNative left || containsNative right
  | .Mod left right => containsNative left || containsNative right
  | .Plus left right => containsNative left || containsNative right
  | .Star left right => containsNative left || containsNative right
  | .Power left right => containsNative left || containsNative right
  | .And left right => containsNative left || containsNative right
  | .Or left right => containsNative left || containsNative right
  | .Equal left right => containsNative left || containsNative right
  | .LowerOrEqual left right => containsNative left || containsNative right
  | .LowerThan left right => containsNative left || containsNative right
  | .GreaterOrEqual left right => containsNative left || containsNative right
  | .GreaterThan left right => containsNative left || containsNative right
  | .Table database _ => containsNative database
  | _ => false

/-! ## The host-level operations behind `algebra.py`'s `operate` bodies.

Each `operate` is a one-line Python expression over the payloads of `Value`
nodes; the payloads a `Value` can carry are `bool`, `int`, `float` and `str`
(and nothing else, see `values.py`), so the operations below are defined on
exactly those.  Floats are exact rationals here (see `HostValue`). -/

/-- The numeric view of a payload: Python's arithmetic treats `bool` as the
integers 0/1 (`bool` subclasses `int`). -/
def toQ : HostValue → Option ℚ
  | .bool b => some (if b then 1 else 0)
  | .int n => some (n : ℚ)
  | .float q => some q
  | _ => none

/-- The integer view of a payload (`bool` and `int` only). -/
def intOf : HostValue → Option Int
  | .bool b => some (if b then 1 else 0)
  | .int n => some n
  | _ => none

/-- Is the payload a `float`?  (Determines `int op int = int` versus
float-producing mixed arithmetic.) -/
def isFloatV : HostValue → Bool
  | .float _ => true
  | _ => false

/-- Python truthiness of a host value. -/
def truthy : HostValue → Bool
  | .none => false
  | .bool b => b
  | .int n => decide (n ≠ 0)
  | .float q => decide (q ≠ 0)
  | .str s => decide (s ≠ "")
  | .list xs => !xs.isEmpty
  | .tuple xs => !xs.isEmpty
  | .dict xs => !xs.isEmpty
  | .native _ => true

/-- `Not.operate`: `not x`. -/
def pyNot (a : HostValue) : HostValue := .bool (!truthy a)

/-- `Plus.operate`: `x + y` (numeric addition, or string concatenation). -/
def pyAdd (a b : HostValue) : Except PyErr HostValue :=
  match a, b with
  | .str x, .str y => .ok (.str (x ++ y))
  | _, _ =>
    match toQ a, toQ b with
    | some qa, some qb =>
        if isFloatV a || isFloatV b then .ok (.float (qa + qb))
        else .ok (.int ((intOf a).getD 0 + (intOf b).getD 0))
    | _, _ => .error .typeError

/-- `x / y`, Python's *true division*: defined on numbers only, always
producing a float, and raising `ZeroDivisionError` on a zero divisor.  This
is the body of `Div.operate` — and also of `Minus.operate`, which the source
defines as `x / y` instead of `x - y` (`algebra.py`). -/
def pyDiv (a b : HostValue) : Except PyErr HostValue :=
  match toQ a, toQ b with
  | some qa, some qb =>
      if qb = 0 then .error .zeroDivisionError else .ok (.float (qa / qb))
  | _, _ => .error .typeError

/-- `x * y`: numeric product, or string repetition by an integer. -/
def pyMul (a b : HostValue) : Except PyErr HostValue :=
  match a, b with
  | .str x, _ =>
      match intOf b with
      | some n => .ok (.str (String.join (List.replicate n.toNat x)))
      | none => .error .typeError
  | _, .str y =>
      match intOf a with
      | some n => .ok (.str (String.join (List.replicate n.toNat y)))
      | none => .error .typeError
  | _, _ =>
    match toQ a, toQ b with
    | some qa, some qb =>
        if isFloatV a || isFloatV b then .ok (.float (qa * qb))
        else .ok (.int ((intOf a).getD 0 * (intOf b).getD 0))
    | _, _ => .error .typeError

/-- `x % y`: floored modulo (the result carries the divisor's sign), raising
`ZeroDivisionError` on a zero divisor.  Python's `%` on a *string* left
operand is printf-style formatting, which is outside this model's value
domain and mapped to `typeError` (no theorem below exercises it). -/
def pyMod (a b : HostValue) : Except PyErr HostValue :=
  match a, b with
  | .str _, _ => .error .typeError
  | _, _ =>
    match toQ a, toQ b with
    | some qa, some qb =>
        if qb = 0 then .error .zeroDivisionError
        else if isFloatV a || isFloatV b then .ok (.float (qa - qb * (⌊qa / qb⌋ : ℤ)))
        else .ok (.int (Int.fmod ((intOf a).getD 0) ((intOf b).getD 0)))
    | _, _ => .error .typeError

/-- `x ** y`.  An integer raised to a non-negative integer stays an integer;
a negative integer exponent produces a float (`2 ** -1 == 0.5`), raising
`ZeroDivisionError` on base 0.  A *float* exponent produces a transcendental
float in Python, which the rational float model cannot represent; that case
is mapped to `typeError` as a model boundary (no theorem below exercises
`Power` at all). -/
def pyPow (a b : HostValue) : Except PyErr HostValue :=
  match toQ a, toQ b with
  | some qa, some _ =>
    match intOf b with
    | some nb =>
        if 0 ≤ nb then
          if isFloatV a then .ok (.float (qa ^ nb.toNat))
          else .ok (.int (((intOf a).getD 0) ^ nb.toNat))
        else if qa = 0 then .error .zeroDivisionError
        else .ok (.float (qa ^ nb))
    | none => .error .typeError
  | _, _ => .error .typeError

/-- `And.operate`: `x and y` returns `y` if `x` is truthy, else `x`. -/
def pyAnd (a b : HostValue) : Except PyErr HostValue :=
  .ok (if truthy a then b else a)

/-- `Or.operate`: `x or y` returns `x` if `x` is truthy, else `y`. -/
def pyOr (a b : HostValue) : Except PyErr HostValue :=
  .ok (if truthy a then a else b)

/-- `Equal.operate`: `x == y` (see `hostEqB`). -/
def pyEqOp (a b : HostValue) : Except PyErr HostValue :=
  .ok (.bool (hostEqB a b))

/-- `x < y`: numeric comparison (with `bool` as 0/1), or lexicographic
string comparison; mixed string/number comparison raises `TypeError`. -/
def pyLt (a b : HostValue) : Except PyErr HostValue :=
  match a, b with
  | .str x, .str y => .ok (.bool (decide (x < y)))
  | _, _ =>
    match toQ a, toQ b with
    | some qa, some qb => .ok (.bool (decide (qa < qb)))
    | _, _ => .error .typeError

/-- `x <= y` (see `pyLt`). -/
def pyLe (a b : HostValue) : Except PyErr HostValue :=
  match a, b with
  | .str x, .str y => .ok (.bool (decide (x ≤ y)))
  | _, _ =>
    match toQ a, toQ b with
    | some qa, some qb => .ok (.bool (decide (qa ≤ qb)))
    | _, _ => .error .typeError

/-- `x > y` (see `pyLt`). -/
def pyGt (a b : HostValue) : Except PyErr HostValue :=
  match a, b with
  | .str x, .str y => .ok (.bool (decide (y < x)))
  | _, _ =>
    match toQ a, toQ b with
    | some qa, some qb => .ok (.bool (decide (qb < qa)))
    | _, _ => .error .typeError

/-- `x >= y` (see `pyLt`). -/
def pyGe (a b : HostValue) : Except PyErr HostValue :=
  match a, b with
  | .str x, .str y => .ok (.bool (decide (y ≤ x)))
  | _, _ =>
    match toQ a, toQ b with
    | some qa, some qb => .ok (.bool (decide (qb ≤ qa)))
    | _, _ => .error .typeError

/-! ## Local evaluation (`Expression.evaluate_locally` and overrides) -/

/-- `isinstance(x, values.Value)`: the `Value` subclasses are `Null`,
`Number`, `Double`, `String` and `Boolean` (`values.py`).  `Native` is *not*
a `Value`. -/
def isValueExp : Exp → Bool
  | .Null => true
  | .Number _ => true
  | .Double _ => true
  | .String _ => true
  | .Boolean _ => true
  | _ => false

/-- The `.value` attribute of a `Value` instance.  `Null` declares *no*
fields (`fields = ()`), so accessing `.value` on it raises
`AttributeError`; the fallback arm is unreachable behind an `isValueExp`
guard. -/
def valueOf : Exp → Except PyErr HostValue
  | .Number n => .ok (.int n)
  | .Double q => .ok (.float q)
  | .String s => .ok (.str s)
  | .Boolean b => .ok (.bool b)
  | _ => .error .attributeError

/-- `UnaryOperator.evaluate_locally` after the element has been evaluated:
require a `Value` instance (else `NotLocallyEvaluableError`), read `.value`
(which raises `AttributeError` on `Null`), apply `operate`, re-`encode`. -/
def applyUnop (op : HostValue → HostValue) (x : HostObj) : Except PyErr HostObj :=
  match x with
  | .expr xe =>
      if isValueExp xe then do
        let xv ← valueOf xe
        encode (op xv)
      else .error .notLocallyEvaluable
  | .nullClass => .error .notLocallyEvaluable

/-- `BinaryOperator.evaluate_locally` after both sides have been evaluated:
require both to be `Value` instances (else `NotLocallyEvaluableError`), read
`.value` left first, apply `operate`, re-`encode`. -/
def applyBinop (op : HostValue → HostValue → Except PyErr HostValue)
    (l r : HostObj) : Except PyErr HostObj :=
  match l, r with
  | .expr le, .expr re =>
      if isValueExp le && isValueExp re then do
        let lv ← valueOf le
        let rv ← valueOf re
        let res ← op lv rv
        encode res
      else .error .notLocallyEvaluable
  | _, _ => .error .notLocallyEvaluable

/-- The QIR tree that `Fixed.evaluate_locally` constructs: the Y combinator
`λf.(λx.f (x x)) (λx.f (x x))` (`functions.py`). -/
def fixedExpr : Exp :=
  .Lambda (.Identifier "f")
    (.Application
      (.Lambda (.Identifier "x")
        (.Application (.Identifier "f")
          (.Application (.Identifier "x") (.Identifier "x"))))
      (.Lambda (.Identifier "x")
        (.Application (.Identifier "f")
          (.Application (.Identifier "x") (.Identifier "x")))))

/-- The inner `traverse` of `TupleDestr.evaluate_locally`: walk the
evaluated tuple head-first; on `TupleNil` return the *class* `values.Null`;
on `TupleCons` return the stored value if `input.key == key`, else recurse
on the tail; on anything else raise `TypeError`.  The `==` between the two
key expressions is Python object equality, which `Expression` does not
override — it is *identity*; the structural tree `Exp` cannot decide
identity, so the comparison is a parameter here (`keyEq`), and the
identity-carrying model `PExp` below instantiates it faithfully. -/
def traverse (keyEq : Exp → Exp → Bool) (key : Exp) : Exp → Except PyErr HostObj
  | .TupleNil => .ok .nullClass
  | .TupleCons k v t =>
      if keyEq k key then .ok (.expr v) else traverse keyEq key t
  | _ => .error .typeError

/-- `Expression.evaluate_remotely`: serialize the tree (mapping
`NotSerializableError` to `NotRemotelyEvaluableError`), then hand the
message to the remote evaluator and unserialize its reply.  The gRPC
transport, the remote server and `unserialize` are external collaborators,
abstracted as the `oracle` parameter; any exception the transport raises
other than `NotSerializableError` propagates out unchanged.  The
`environment` parameter of the source is ignored by its body (a `TODO` in
`base.py`). -/
def evaluate_remotely (oracle : Exp → Except PyErr Exp) (e : Exp) :
    Except PyErr Exp :=
  match serialize e with
  | .error _ => .error .notRemotelyEvaluable
  | .ok _ =>
    match oracle e with
    | .error .notSerializable => .error .notRemotelyEvaluable
    | r => r

mutual

/-- `evaluate_locally`, dispatched over the concrete `Expression` subclasses
(every concrete class overrides the default, so there is no default arm).
`oracle` abstracts the remote evaluator (some classes re-enter `evaluate`),
`keyEq` abstracts the identity-based `==` of `TupleDestr` (see `traverse`),
and the `Nat` is evaluation fuel (the source may diverge).  Case by case:

* Values, `ListNil`, `TupleNil`, `Lambda`, `Native`: return self.
* `ListCons`: `ListCons(head.evaluate(env), tail.evaluate(env))` — note the
  children go through `evaluate`, the remote-first entry point
  (`lists.py`), and the constructor shape-checks the results.
* `ListDestr`: evaluate the input; on `ListNil` evaluate `on_nil`; on
  `ListCons(h, t)` evaluate `Application(Application(on_cons.evaluate(env),
  h), t)`; otherwise `TypeError`.
* `TupleCons`: evaluate the three fields with `evaluate_locally`
  (`tuples.py`) and rebuild.
* `TupleDestr`: evaluate input and key with `evaluate_locally`; a non-
  `String` key returns the class `Null`; else `traverse` the input.
* `Identifier`: look the name up in the environment, else return self.
* `Fixed`: return the Y-combinator tree.
* `Application`: evaluate the argument *before* the function
  (`functions.py`); a `Native` wrapping a `types.FunctionType` then executes
  `base.encode(...)` — but the module `base` has no attribute `encode`, so
  this raises `AttributeError`; a `Lambda` binds its parameter name in a
  copy of the environment and evaluates the body; anything else raises
  `TypeError` (a `Native` wrapping a non-function falls through to that).
* `Conditional`: evaluate the condition; a non-`Boolean` raises
  `TypeError`; else evaluate only the selected branch.
* The unary/binary operators evaluate their operands with
  `evaluate_locally` (left before right) and defer to `applyUnop` /
  `applyBinop` with their `operate` body; `Minus` uses `pyDiv` because
  `Minus.operate` is literally `x / y` in the source.
* The relational operators `Scan`, `Filter`, `Project`, `Sort`, `Limit`,
  `Group` and `Join` all raise `NotYetImplementedError` (`operators.py`).
* `Builtin` returns `Native(self.function)`.
* `Bytecode` executes `types.FunctionType(self.code)`, which raises
  `TypeError`: `FunctionType` requires a `globals` argument.
* `Database` raises `NotLocallyEvaluableError`.
* `Table` executes `self.evaluate_remotely()` with no argument, which
  raises `TypeError`: the method requires `environment`. -/
def evaluate_locally (oracle : Exp → Except PyErr Exp) (keyEq : Exp → Exp → Bool) :
    Nat → List (String × HostObj) → Exp → Except PyErr HostObj
  | 0, _, _ => .error .outOfFuel
  | fuel + 1, env, e =>
    match e with
    | .Null => .ok (.expr e)
    | .Number _ => .ok (.expr e)
    | .Double _ => .ok (.expr e)
    | .String _ => .ok (.expr e)
    | .Boolean _ => .ok (.expr e)
    | .ListNil => .ok (.expr e)
    | .ListCons head tail => do
        let hv ← evaluate oracle keyEq fuel env head
        let tv ← evaluate oracle keyEq fuel env tail
        let he ← asExprE hv
        let te ← asExprE tv
        pure (.expr (.ListCons he te))
    | .ListDestr input on_nil on_cons => do
        let iv ← evaluate oracle keyEq fuel env input
        match iv with
        | .expr .ListNil => evaluate oracle keyEq fuel env on_nil
        | .expr (.ListCons h t) => do
            let cv ← evaluate oracle keyEq fuel env on_cons
            let ce ← asExprE cv
            evaluate oracle keyEq fuel env (.Application (.Application ce h) t)
        | _ => .error .typeError
    | .TupleNil => .ok (.expr e)
    | .TupleCons key value tail => do
        let kv ← evaluate_locally oracle keyEq fuel env key
        let vv ← evaluate_locally oracle keyEq fuel env value
        let tv ← evaluate_locally oracle keyEq fuel env tail
        let ke ← asExprE kv
        let ve ← asExprE vv
        let te ← asExprE tv
        pure (.expr (.TupleCons ke ve te))
    | .TupleDestr input key => do
        let iv ← evaluate_locally oracle keyEq fuel env input
        let kv ← evaluate_locally oracle keyEq fuel env key
        match kv with
        | .expr ke =>
          match ke with
          | .String _ =>
            (match iv with
             | .expr ie => traverse keyEq ke ie
             | .nullClass => .error .typeError)
          | _ => .ok .nullClass
        | .nullClass => .ok .nullClass
    | .Identifier name =>
        match env.lookup name with
        | some v => .ok v
        | Option.none => .ok (.expr e)
    | .Lambda _ _ => .ok (.expr e)
    | .Fixed => .ok (.expr fixedExpr)
    | .Application function argument => do
        let av ← evaluate_locally oracle keyEq fuel env argument
        let fv ← evaluate_locally oracle keyEq fuel env function
        match fv with
        | .expr (.Native nv) =>
          match nv with
          | .func _ => .error .attributeError
          | _ => .error .typeError
        | .expr (.Lambda p body) =>
          match p with
          | .Identifier pname =>
              evaluate_locally oracle keyEq fuel ((pname, av) :: env) body
          | _ => .error .attributeError
        | _ => .error .typeError
    | .Conditional condition on_true on_false => do
        let cv ← evaluate_locally oracle keyEq fuel env condition
        match cv with
        | .expr (.Boolean b) =>
            if b then evaluate_locally oracle keyEq fuel env on_true
            else evaluate_locally oracle keyEq fuel env on_false
        | _ => .error .typeError
    | .Scan _ => .error .notYetImplemented
    | .Filter _ _ => .error .notYetImplemented
    | .Project _ _ => .error .notYetImplemented
    | .Sort _ _ _ => .error .notYetImplemented
    | .Limit _ _ => .error .notYetImplemented
    | .Group _ _ => .error .notYetImplemented
    | .Join _ _ _ => .error .notYetImplemented
    | .Not element => do
        let ev ← evaluate_locally oracle keyEq fuel env element
        applyUnop pyNot ev
    | .Div left right => do
        let lv ← evaluate_locally oracle keyEq fuel env left
        let rv ← evaluate_locally oracle keyEq fuel env right
        applyBinop pyDiv lv rv
    | .Minus left right => do
        let lv ← evaluate_locally oracle keyEq fuel env left
        let rv ← evaluate_locally oracle keyEq fuel env right
        applyBinop pyDiv lv rv
    | .Mod left right => do
        let lv ← evaluate_locally oracle keyEq fuel env left
        let rv ← evaluate_locally oracle keyEq fuel env right
        applyBinop pyMod lv rv
    | .Plus left right => do
        let lv ← evaluate_locally oracle keyEq fuel env left
        let rv ← evaluate_locally oracle keyEq fuel env right
        applyBinop pyAdd lv rv
    | .Star left right => do
        let lv ← evaluate_locally oracle keyEq fuel env left
        let rv ← evaluate_locally oracle keyEq fuel env right
        applyBinop pyMul lv rv
    | .Power left right => do
        let lv ← evaluate_locally oracle keyEq fuel env left
        let rv ← evaluate_locally oracle keyEq fuel env right
        applyBinop pyPow lv rv
    | .And left right => do
        let lv ← evaluate_locally oracle keyEq fuel env left
        let rv ← evaluate_locally oracle keyEq fuel env right
        applyBinop pyAnd lv rv
    | .Or left right => do
        let lv ← evaluate_locally oracle keyEq fuel env left
        let rv ← evaluate_locally oracle keyEq fuel env right
        applyBinop pyOr lv rv
    | .Equal left right => do
        let lv ← evaluate_locally oracle keyEq fuel env left
        let rv ← evaluate_locally oracle keyEq fuel env right
        applyBinop pyEqOp lv rv
    | .LowerOrEqual left right => do
        let lv ← evaluate_locally oracle keyEq fuel env left
        let rv ← evaluate_locally oracle keyEq fuel env right
        applyBinop pyLe lv rv
    | .LowerThan left right => do
        let lv ← evaluate_locally oracle keyEq fuel env left
        let rv ← evaluate_locally oracle keyEq fuel env right
        applyBinop pyLt lv rv
    | .GreaterOrEqual left right => do
        let lv ← evaluate_locally oracle keyEq fuel env left
        let rv ← evaluate_locally oracle keyEq fuel env right
        applyBinop pyGe lv rv
    | .GreaterThan left right => do
        let lv ← evaluate_locally oracle keyEq fuel env left
        let rv ← evaluate_locally oracle keyEq fuel env right
        applyBinop pyGt lv rv
    | .Native _ => .ok (.expr e)
    | .Builtin _ _ function => .ok (.expr (.Native (.builtin function)))
    | .Bytecode _ => .error .typeError
    | .Database _ _ _ _ _ _ => .error .notLocallyEvaluable
    | .Table _ _ => .error .typeError

/-- `Expression.evaluate`: try `evaluate_remotely`; if (and only if) that
raised `NotRemotelyEvaluableError`, fall back to `evaluate_locally`; every
other outcome — success or any other exception — is returned unchanged. -/
def evaluate (oracle : Exp → Except PyErr Exp) (keyEq : Exp → Exp → Bool) :
    Nat → List (String × HostObj) → Exp → Except PyErr HostObj
  | 0, _, _ => .error .outOfFuel
  | fuel + 1, env, e =>
    match evaluate_remotely oracle e with
    | .error .notRemotelyEvaluable => evaluate_locally oracle keyEq fuel env e
    | .error err => .error err
    | .ok r => .ok (.expr r)

end

/-! ## The `CALL_FUNCTION` step of the symbolic executor
(`decompile.py`, `LinearBlock.execute`) -/

/-- The `CALL_FUNCTION` arm of `LinearBlock.execute`.  The operand stack is
a Python list with its top at the *end*.  The source reads
`inner = stack[-(count + 1)]` (the callee, sitting below the arguments —
an out-of-range negative index raises `IndexError`), then loops `count`
times doing `inner = Application(inner, stack.pop())` — each `pop` takes the
current *top*, so the topmost (right-most) argument is applied first — then
pops the callee and pushes `inner`. -/
def callFunction (count : Nat) (stack : List Exp) : Except PyErr (List Exp) :=
  if stack.length < count + 1 then .error .indexError
  else
    match stack.get? (stack.length - (count + 1)) with
    | Option.none => .error .indexError
    | some f =>
        let args := stack.drop (stack.length - count)
        let inner := args.reverse.foldl (fun acc a => Exp.Application acc a) f
        .ok (stack.take (stack.length - (count + 1)) ++ [inner])

/-! ## Expressions with Python object identity (`PExp`)

`Expression` defines no `__eq__`, so Python's `==` between two expressions
is object identity.  Two places in the source compare expressions with
`==`: the predecessor-stack reconciliation of `Block.execute`
(`stacks[0] != stack` compares the lists element-wise) and the key lookup
in `TupleDestr.evaluate_locally` (`input.key == key`).  `PExp` carries each
object's id so that identity is decidable; it covers the value/tuple
fragment of the language, which is all those two code paths inspect
(reconciliation compares stack entries only by identity, whatever they
are). -/
inductive PExp where
  | Null (oid : Nat)
  | Number (oid : Nat) (value : Int)
  | Double (oid : Nat) (value : ℚ)
  | String (oid : Nat) (value : String)
  | Boolean (oid : Nat) (value : Bool)
  | TupleNil (oid : Nat)
  | TupleCons (oid : Nat) (key value tail : PExp)
  | TupleDestr (oid : Nat) (input key : PExp)
deriving DecidableEq, Repr

/-- The object's id. -/
def PExp.oid : PExp → Nat
  | .Null i => i
  | .Number i _ => i
  | .Double i _ => i
  | .String i _ => i
  | .Boolean i _ => i
  | .TupleNil i => i
  | .TupleCons i _ _ _ => i
  | .TupleDestr i _ _ => i

/-- Python `==` between two `Expression` instances: `Expression` defines no
`__eq__`, so this is `object.__eq__` — identity, i.e. the same object id.
(In a well-formed heap the id determines the object.) -/
def pyEqE (a b : PExp) : Bool := a.oid == b.oid

/-- Structural equality of the underlying QIR trees, ignoring object
identity: what the specification means by "element-wise equality of QIR
trees". -/
def structEq : PExp → PExp → Bool
  | .Null _, .Null _ => true
  | .Number _ a, .Number _ b => a == b
  | .Double _ a, .Double _ b => a == b
  | .String _ a, .String _ b => a == b
  | .Boolean _ a, .Boolean _ b => a == b
  | .TupleNil _, .TupleNil _ => true
  | .TupleCons _ k v t, .TupleCons _ k2 v2 t2 =>
      structEq k k2 && structEq v v2 && structEq t t2
  | .TupleDestr _ i k, .TupleDestr _ i2 k2 => structEq i i2 && structEq k k2
  | _, _ => false

/-- Like `HostObj`, for the identity-carrying model: an `Expression`
instance or the class object `values.Null`. -/
inductive POb where
  | expr (e : PExp)
  | nullClass
deriving DecidableEq, Repr

/-- `Expression.__init__`'s `isinstance(argument, Expression)` check for
the identity-carrying model (see `asExprE`). -/
def pAsExpr : POb → Except PyErr PExp
  | .expr e => .ok e
  | .nullClass => .error .typeError

/-- The inner `traverse` of `TupleDestr.evaluate_locally` over identity-
carrying expressions (see `traverse` above): `input.key == key` is the
identity comparison `pyEqE`. -/
def ptraverse (key : PExp) : PExp → Except PyErr POb
  | .TupleNil _ => .ok .nullClass
  | .TupleCons _ k v t =>
      if pyEqE k key then .ok (.expr v) else ptraverse key t
  | _ => .error .typeError

/-- `evaluate_locally` over the identity-carrying value/tuple fragment
(`values.py` and `tuples.py`; the Python methods are the same ones embedded
in `evaluate_locally` above, here with object identity made explicit).
`ctr` is the allocator: it is assumed larger than every id already in use,
fresh objects take the current counter as id, and the new counter is
returned.  `Value.evaluate_locally` and `TupleNil.evaluate_locally` return
`self` — the *same* object, preserving its id, which is why a `TupleDestr`
whose key is the very object stored in the tuple finds it.
`TupleCons.evaluate_locally` builds a *new* `TupleCons` from the evaluated
fields; `TupleDestr.evaluate_locally` evaluates input and key, returns the
class `Null` for a non-`String` key, and otherwise traverses.  The
environment is threaded but unused by this fragment. -/
def pevaluate_locally (ctr : Nat) (env : List (String × POb)) :
    PExp → Except PyErr (POb × Nat)
  | .Null i => .ok (.expr (.Null i), ctr)
  | .Number i n => .ok (.expr (.Number i n), ctr)
  | .Double i q => .ok (.expr (.Double i q), ctr)
  | .String i s => .ok (.expr (.String i s), ctr)
  | .Boolean i b => .ok (.expr (.Boolean i b), ctr)
  | .TupleNil i => .ok (.expr (.TupleNil i), ctr)
  | .TupleCons _ key value tail => do
      let (kv, c1) ← pevaluate_locally ctr env key
      let (vv, c2) ← pevaluate_locally c1 env value
      let (tv, c3) ← pevaluate_locally c2 env tail
      let ke ← pAsExpr kv
      let ve ← pAsExpr vv
      let te ← pAsExpr tv
      pure (.expr (.TupleCons c3 ke ve te), c3 + 1)
  | .TupleDestr _ input key => do
      let (iv, c1) ← pevaluate_locally ctr env input
      let (kv, c2) ← pevaluate_locally c1 env key
      match kv with
      | .expr ke =>
        match ke with
        | .String _ _ =>
          (match iv with
           | .expr ie => do
               let r ← ptraverse ke ie
               pure (r, c2)
           | .nullClass => .error .typeError)
        | _ => .ok (.nullClass, c2)
      | .nullClass => .ok (.nullClass, c2)

/-! ## Predecessor-stack reconciliation (`decompile.py`, `Block.execute`) -/

/-- Edge labels of the control-flow graph: `NORMAL_FLOW` and `JUMP_FLOW`. -/
inductive Edge where
  | normal
  | jump
deriving DecidableEq, BEq, Repr

/-- What `Block.execute` dispatches on:
`isinstance(predecessor, (BranchBlock, ForIterBlock))`. -/
inductive PredKind where
  | branchBlock
  | forIterBlock
  | otherBlock
deriving DecidableEq, Repr

/-- A predecessor as `Block.execute` sees it: its block class, its
instruction's opname, and its final operand stack (a Python list, top at the
end). -/
structure PredBlock where
  pkind : PredKind
  opname : String
  stack : List PExp

/-- The per-edge contributing stack of `Block.execute`: for a `BranchBlock`
or `ForIterBlock` predecessor, the full final stack `stack[:]` is kept when
(`opname == 'FOR_ITER'` and the edge is `NORMAL_FLOW`) or (the opname is one
of `JUMP_IF_TRUE_OR_POP` / `JUMP_IF_FALSE_OR_POP` — `BRANCH_MAY_POP_OPNAMES`
— and the edge is `JUMP_FLOW`); in every other case the top is dropped
(`stack[:-1]`).  Any other predecessor contributes its full stack. -/
def contribStack (p : PredBlock) (edge : Edge) : List PExp :=
  match p.pkind with
  | .branchBlock | .forIterBlock =>
      if (p.opname == "FOR_ITER" && edge == Edge.normal)
          || ((p.opname == "JUMP_IF_TRUE_OR_POP"
               || p.opname == "JUMP_IF_FALSE_OR_POP")
              && edge == Edge.jump)
      then p.stack
      else p.stack.dropLast
  | .otherBlock => p.stack

/-- Python `==` between two stacks (lists of expressions): equal length and
element-wise `==`, which for `Expression` instances is identity
(see `pyEqE`). -/
def pyListEq : List PExp → List PExp → Bool
  | [], [] => true
  | a :: xs, b :: ys => pyEqE a b && pyListEq xs ys
  | _, _ => false

/-- Structural equality of two stacks, element-wise on the trees. -/
def structEqList : List PExp → List PExp → Bool
  | [], [] => true
  | a :: xs, b :: ys => structEq a b && structEqList xs ys
  | _, _ => false

/-- The body of `Block.execute`: collect the contributing stack of every
incoming edge; with no predecessor, copy the supplied `starting_stack`
(default empty); otherwise fail with `PredecessorStacksError` if any
contributing stack differs from the first (`stacks[0] != stack`, Python
list inequality — identity on the elements), and otherwise adopt the first
contributing stack as the block's initial stack. -/
def blockInitialStack (preds : List (PredBlock × Edge)) (starting_stack : List PExp) :
    Except PyErr (List PExp) :=
  let stackList := preds.map fun pe => contribStack pe.1 pe.2
  match stackList with
  | [] => .ok starting_stack
  | s0 :: rest =>
      if rest.any fun s => !pyListEq s0 s then .error .predecessorStacks
      else .ok s0

/-! ## Construction-time shape checking (`Expression.__init__`) -/

/-- The concrete `Expression` subclasses (the abstract bases `Expression`,
`Value`, `ListConstr`, `TupleConstr`, `Operator`, `UnaryOperator`,
`BinaryOperator` and `UnserializableExpression` leave `fields = None` and
cannot be instantiated). -/
inductive Variant where
  | Null | Number | Double | String | Boolean
  | ListNil | ListCons | ListDestr
  | TupleNil | TupleCons | TupleDestr
  | Identifier | Lambda | Fixed | Application | Conditional
  | Scan | Filter | Project | Sort | Limit | Group | Join
  | Not | Div | Minus | Mod | Plus | Star | Power | And | Or
  | Equal | LowerOrEqual | LowerThan | GreaterOrEqual | GreaterThan
  | Native | Builtin | Bytecode | Database | Table
deriving DecidableEq, Repr

/-- The per-field shape constraints that occur in the `fields` descriptors:
a host type (`int`, `float`, `str`, `bool`, `object`,
`types.BuiltinFunctionType`, `types.CodeType`) or an `Expression` class
(`base.Expression`, `functions.Identifier`, `specials.Database`). -/
inductive FieldShape where
  | expr | identifier | database
  | int | float | str | bool | obj | builtinFunction | code
deriving DecidableEq, Repr

/-- A Python value passed as a constructor argument. -/
inductive Arg where
  | expr (e : Exp)
  | int (n : Int)
  | float (q : ℚ)
  | bool (b : Bool)
  | str (s : String)
  | builtinFunction (id : Nat)
  | code (id : Nat)
  | pyFunc (id : Nat)
  | none
deriving DecidableEq, Repr

/-- The `fields` descriptor of each class (shapes only, in declaration
order), transcribed from `values.py`, `lists.py`, `tuples.py`,
`functions.py`, `operators.py`, `algebra.py` and `specials.py`. -/
def fieldsOf : Variant → List FieldShape
  | .Null => []
  | .Number => [.int]
  | .Double => [.float]
  | .String => [.str]
  | .Boolean => [.bool]
  | .ListNil => []
  | .ListCons => [.expr, .expr]
  | .ListDestr => [.expr, .expr, .expr]
  | .TupleNil => []
  | .TupleCons => [.expr, .expr, .expr]
  | .TupleDestr => [.expr, .expr]
  | .Identifier => [.str]
  | .Lambda => [.identifier, .expr]
  | .Fixed => []
  | .Application => [.expr, .expr]
  | .Conditional => [.expr, .expr, .expr]
  | .Scan => [.expr]
  | .Filter => [.expr, .expr]
  | .Project => [.expr, .expr]
  | .Sort => [.expr, .expr, .expr]
  | .Limit => [.expr, .expr]
  | .Group => [.expr, .expr]
  | .Join => [.expr, .expr, .expr]
  | .Not => [.expr]
  | .Div => [.expr, .expr]
  | .Minus => [.expr, .expr]
  | .Mod => [.expr, .expr]
  | .Plus => [.expr, .expr]
  | .Star => [.expr, .expr]
  | .Power => [.expr, .expr]
  | .And => [.expr, .expr]
  | .Or => [.expr, .expr]
  | .Equal => [.expr, .expr]
  | .LowerOrEqual => [.expr, .expr]
  | .LowerThan => [.expr, .expr]
  | .GreaterOrEqual => [.expr, .expr]
  | .GreaterThan => [.expr, .expr]
  | .Native => [.obj]
  | .Builtin => [.str, .str, .builtinFunction]
  | .Bytecode => [.code]
  | .Database => [.str, .str, .str, .int, .str, .str]
  | .Table => [.database, .str]

/-- `isinstance(argument, field[1])`.  Everything is an instance of
`object`; a `bool` is an instance of `int` (but not conversely, and neither
is an instance of `float`); `Identifier` and `Database` accept exactly the
instances of those classes; `types.BuiltinFunctionType` is distinct from
`types.FunctionType`. -/
def isInst : Arg → FieldShape → Bool
  | _, .obj => true
  | .expr _, .expr => true
  | .expr (.Identifier _), .identifier => true
  | .expr (.Database _ _ _ _ _ _), .database => true
  | .int _, .int => true
  | .bool _, .int => true
  | .bool _, .bool => true
  | .float _, .float => true
  | .str _, .str => true
  | .builtinFunction _, .builtinFunction => true
  | .code _, .code => true
  | _, _ => false

/-- Payload extractors used by `buildExp` (defined on the arguments that
pass `isInst` for the corresponding shape). -/
def argExp : Arg → Option Exp
  | .expr e => some e
  | _ => Option.none

/-- Integer payload; a `bool` argument is stored as 0/1 here (Python stores
the `bool` object itself, which numerically equals 0/1). -/
def argInt : Arg → Option Int
  | .int n => some n
  | .bool b => some (if b then 1 else 0)
  | _ => Option.none

/-- String payload. -/
def argStr : Arg → Option String
  | .str s => some s
  | _ => Option.none

/-- The `NativeVal` for an arbitrary object stored in a `Native` node. -/
def argNative : Arg → NativeVal
  | .pyFunc i => .func i
  | .builtinFunction i => .builtin i
  | .code i => .obj i
  | _ => .obj 0

/-- `setattr`-and-build: produce the node from arguments that have already
passed the arity and `isinstance` checks (arms for argument lists that
cannot pass the checks return `typeError`; they are unreachable from
`constructExpr`). -/
def buildExp : Variant → List Arg → Except PyErr Exp
  | .Null, [] => .ok .Null
  | .Number, [a] =>
      match argInt a with
      | some n => .ok (.Number n)
      | Option.none => .error .typeError
  | .Double, [.float q] => .ok (.Double q)
  | .String, [.str s] => .ok (.String s)
  | .Boolean, [.bool b] => .ok (.Boolean b)
  | .ListNil, [] => .ok .ListNil
  | .ListCons, [.expr h, .expr t] => .ok (.ListCons h t)
  | .ListDestr, [.expr a, .expr b, .expr c] => .ok (.ListDestr a b c)
  | .TupleNil, [] => .ok .TupleNil
  | .TupleCons, [.expr a, .expr b, .expr c] => .ok (.TupleCons a b c)
  | .TupleDestr, [.expr a, .expr b] => .ok (.TupleDestr a b)
  | .Identifier, [.str s] => .ok (.Identifier s)
  | .Lambda, [.expr p, .expr b] => .ok (.Lambda p b)
  | .Fixed, [] => .ok .Fixed
  | .Application, [.expr f, .expr a] => .ok (.Application f a)
  | .Conditional, [.expr a, .expr b, .expr c] => .ok (.Conditional a b c)
  | .Scan, [.expr t] => .ok (.Scan t)
  | .Filter, [.expr a, .expr b] => .ok (.Filter a b)
  | .Project, [.expr a, .expr b] => .ok (.Project a b)
  | .Sort, [.expr a, .expr b, .expr c] => .ok (.Sort a b c)
  | .Limit, [.expr a, .expr b] => .ok (.Limit a b)
  | .Group, [.expr a, .expr b] => .ok (.Group a b)
  | .Join, [.expr a, .expr b, .expr c] => .ok (.Join a b c)
  | .Not, [.expr a] => .ok (.Not a)
  | .Div, [.expr a, .expr b] => .ok (.Div a b)
  | .Minus, [.expr a, .expr b] => .ok (.Minus a b)
  | .Mod, [.expr a, .expr b] => .ok (.Mod a b)
  | .Plus, [.expr a, .expr b] => .ok (.Plus a b)
  | .Star, [.expr a, .expr b] => .ok (.Star a b)
  | .Power, [.expr a, .expr b] => .ok (.Power a b)
  | .And, [.expr a, .expr b] => .ok (.And a b)
  | .Or, [.expr a, .expr b] => .ok (.Or a b)
  | .Equal, [.expr a, .expr b] => .ok (.Equal a b)
  | .LowerOrEqual, [.expr a, .expr b] => .ok (.LowerOrEqual a b)
  | .LowerThan, [.expr a, .expr b] => .ok (.LowerThan a b)
  | .GreaterOrEqual, [.expr a, .expr b] => .ok (.GreaterOrEqual a b)
  | .GreaterThan, [.expr a, .expr b] => .ok (.GreaterThan a b)
  | .Native, [a] => .ok (.Native (argNative a))
  | .Builtin, [.str m, .str n, .builtinFunction f] => .ok (.Builtin m n f)
  | .Bytecode, [.code c] => .ok (.Bytecode c)
  | .Database, [a, b, c, d, e2, f] =>
      match argStr a, argStr b, argStr c, argInt d, argStr e2, argStr f with
      | some x1, some x2, some x3, some x4, some x5, some x6 =>
          .ok (.Database x1 x2 x3 x4 x5 x6)
      | _, _, _, _, _, _ => .error .typeError
  | .Table, [.expr d, .str n] => .ok (.Table d n)
  | _, _ => .error .typeError

/-- `Expression.__init__` (`base.py`).  First the arity check: on a
mismatch the source executes
`raise TypeError('Expected %d arguments for %s, got %d' % (len(self.fields),
self.__name__, len(args)))` — but instances have no `__name__` attribute
(only classes do, and instance attribute lookup does not reach the
metaclass), so evaluating the format tuple raises **`AttributeError`**
before the `TypeError` is ever constructed.  Then each argument is checked
with `isinstance` against its field's declared shape in order, raising
`TypeError` at the first mismatch, and stored with `setattr`. -/
def constructExpr (v : Variant) (args : List Arg) : Except PyErr Exp :=
  if args.length ≠ (fieldsOf v).length then .error .attributeError
  else if (args.zip (fieldsOf v)).all fun p => isInst p.1 p.2 then buildExp v args
  else .error .typeError

/-! ## Shared concrete instances for witnesses and counterexamples -/

/-- A concrete remote evaluator for witnesses: one that always declines
(e.g. no server is reachable, so the orchestrator always falls back to
local evaluation). -/
def noRemote : Exp → Except PyErr Exp := fun _ => .error .notRemotelyEvaluable

/-- A concrete instantiation of the identity-based key comparison for
witnesses: a run in which no two compared key objects are identical. -/
def anyKeyEq : Exp → Exp → Bool := fun _ _ => false

/-- Is a result a `Boolean` instance (`isinstance(x, values.Boolean)`)? -/
def isBooleanObj : HostObj → Bool
  | .expr (.Boolean _) => true
  | _ => false

/-- Case lemma for `ser2` applied to two already-classified results. -/
theorem ser2_if (c1 c2 : Bool) :
    ser2 (if c1 then Except.error PyErr.notSerializable else Except.ok ())
        (if c2 then Except.error PyErr.notSerializable else Except.ok ()) =
      if c1 || c2 then Except.error PyErr.notSerializable else Except.ok () := by
  cases c1 <;> cases c2 <;> rfl

set_option maxHeartbeats 800000 in
/-- `serialize` fails — with `NotSerializableError` — precisely on the trees
that contain a `Native` node. -/
theorem serialize_eq_containsNative (e : Exp) :
    serialize e =
      if containsNative e then Except.error PyErr.notSerializable
      else Except.ok () := by
  induction e <;> simp only [serialize, containsNative] <;>
    (try simp only [*, ser2_if, Bool.or_assoc]) <;> rfl

/-- C1 theorem (code bug): at the failing input `[1, 2]`, `encode` yields
the *reversed* QIR list `ListCons(Number(2), ListCons(Number(1), ListNil))`
rather than the head-first `ListCons(Number(1), …)` the claim states, and
`decode` of that (or any) `ListCons` raises `TypeError`
(`ListCons.decode` calls `self.head()`, but expressions are not callable) —
so `decode(encode([1, 2]))` raises instead of returning `[1, 2]`. -/
theorem c1_encode_list_reversed_and_decode_fails :
    encode (.list [.int 1, .int 2]) =
      .ok (.expr (.ListCons (.Number 2) (.ListCons (.Number 1) .ListNil))) ∧
    (Except.ok (HostObj.expr (.ListCons (.Number 2) (.ListCons (.Number 1) .ListNil)))
        : Except PyErr HostObj) ≠
      .ok (.expr (.ListCons (.Number 1) (.ListCons (.Number 2) .ListNil))) ∧
    decode (.expr (.ListCons (.Number 2) (.ListCons (.Number 1) .ListNil))) =
      .error .typeError := by
  refine ⟨rfl, by simp, rfl⟩

/-- C2 theorem (code bug): `CALL_FUNCTION 2` on the stack `[f, a1, a2]`
(with `a2` on top) replaces the three entries with
`Application(Application(f, a2), a1)` — the *right-most* argument is applied
innermost — which differs from the claimed
`Application(Application(f, a1), a2)`. -/
theorem c2_callFunction_applies_rightmost_innermost :
    callFunction 2 [.Identifier "f", .Number 1, .Number 2] =
      .ok [.Application (.Application (.Identifier "f") (.Number 2)) (.Number 1)] ∧
    (Except.ok [Exp.Application (.Application (.Identifier "f") (.Number 2)) (.Number 1)] :
        Except PyErr (List Exp)) ≠
      .ok [.Application (.Application (.Identifier "f") (.Number 1)) (.Number 2)] := by
  refine ⟨rfl, by simp⟩

/-- C3 counterexample: a `ForIterBlock` predecessor with final stack
`[iterator, cv]`.  Along the `Normal` edge the code contributes the *full*
stack (not, as claimed, the stack minus one value), and along the `Jump`
edge it contributes the stack *minus one value* (not, as claimed, the full
stack). -/
theorem c3_forIter_edges_counterexample :
    contribStack ⟨.forIterBlock, "FOR_ITER", [.String 0 "it", .String 1 "cv"]⟩ .normal ≠
      ([PExp.String 0 "it", PExp.String 1 "cv"]).dropLast ∧
    contribStack ⟨.forIterBlock, "FOR_ITER", [.String 0 "it", .String 1 "cv"]⟩ .jump ≠
      [PExp.String 0 "it", PExp.String 1 "cv"] := by
  constructor <;> decide

/-- C3 amended: for a `ForIterBlock` predecessor, the `Normal` edge (the
iterator yielded a value; the block itself pushed the current-value
identifier on top of its own stack) contributes the predecessor's *full*
final stack, and the `Jump` edge (iterator exhausted) contributes the final
stack *minus one value*. -/
theorem c3_forIter_edge_contributions (stack : List PExp) :
    contribStack ⟨.forIterBlock, "FOR_ITER", stack⟩ .normal = stack ∧
    contribStack ⟨.forIterBlock, "FOR_ITER", stack⟩ .jump = stack.dropLast := by
  constructor <;> rfl

/-- C4 theorem (code bug): `Minus.operate` is `x / y`, so locally evaluating
`Minus(Number(4), Number(2))` performs true division and returns
`Double(2.0)` — not the `Number(2)` that subtraction semantics requires
(true division always yields a float, so the result is a `Double`, never a
`Number`). -/
theorem c4_minus_evaluates_division :
    evaluate_locally noRemote anyKeyEq 2 [] (.Minus (.Number 4) (.Number 2)) =
      .ok (.expr (.Double 2)) ∧
    (Except.ok (HostObj.expr (Exp.Double 2)) : Except PyErr HostObj) ≠
      .ok (.expr (.Number 2)) := by
  constructor
  · simp [evaluate_locally, applyBinop, pyDiv, toQ, isValueExp, valueOf, encode,
      Bind.bind, Except.bind]
    norm_num
  · simp

/-- C5 counterexample: locally evaluating `Scan(Identifier("users"))` raises
`NotYetImplementedError` — not the `NotLocallyEvaluableError` the claim
names (the two are distinct exception classes in `errors.py`, and
`Expression.evaluate` catches neither). -/
theorem c5_scan_counterexample :
    evaluate_locally noRemote anyKeyEq 1 [] (.Scan (.Identifier "users")) =
      .error .notYetImplemented ∧
    (Except.error PyErr.notYetImplemented : Except PyErr HostObj) ≠
      .error .notLocallyEvaluable := by
  refine ⟨rfl, by simp⟩

/-- C5 amended: locally evaluating any relational operator node (`Scan`,
`Filter`, `Project`, `Sort`, `Limit`, `Group`, `Join`) raises
`NotYetImplementedError` (each override in `operators.py` does so
unconditionally; `NotLocallyEvaluableError` is raised by `Database`, not by
the relational operators). -/
theorem c5_operators_notYetImplemented (oracle : Exp → Except PyErr Exp)
    (keyEq : Exp → Exp → Bool) (fuel : Nat) (env : List (String × HostObj))
    (t fp fi pf pi sr sa si ll li gr gi jf jl jr : Exp) :
    evaluate_locally oracle keyEq (fuel + 1) env (.Scan t) = .error .notYetImplemented ∧
    evaluate_locally oracle keyEq (fuel + 1) env (.Filter fp fi) = .error .notYetImplemented ∧
    evaluate_locally oracle keyEq (fuel + 1) env (.Project pf pi) = .error .notYetImplemented ∧
    evaluate_locally oracle keyEq (fuel + 1) env (.Sort sr sa si) = .error .notYetImplemented ∧
    evaluate_locally oracle keyEq (fuel + 1) env (.Limit ll li) = .error .notYetImplemented ∧
    evaluate_locally oracle keyEq (fuel + 1) env (.Group gr gi) = .error .notYetImplemented ∧
    evaluate_locally oracle keyEq (fuel + 1) env (.Join jf jl jr) = .error .notYetImplemented := by
  refine ⟨rfl, rfl, rfl, rfl, rfl, rfl, rfl⟩

/-- C6: `evaluate` first attempts `evaluate_remotely` and falls back to
`evaluate_locally` exactly when the remote attempt raised
`NotRemotelyEvaluableError` (any other outcome — success or another
exception — is returned unchanged); and for any tree containing a `Native`
node, serialisation raises `NotSerializableError`, which
`evaluate_remotely` maps to `NotRemotelyEvaluableError`. -/
theorem c6_evaluate_remote_first_and_native_declines
    (oracle : Exp → Except PyErr Exp) (keyEq : Exp → Exp → Bool) (fuel : Nat)
    (env : List (String × HostObj)) (e : Exp) :
    (evaluate oracle keyEq (fuel + 1) env e =
      match evaluate_remotely oracle e with
      | .error .notRemotelyEvaluable => evaluate_locally oracle keyEq fuel env e
      | .error err => .error err
      | .ok r => .ok (.expr r)) ∧
    (containsNative e = true →
      serialize e = .error .notSerializable ∧
      evaluate_remotely oracle e = .error .notRemotelyEvaluable) := by
  constructor
  · rfl
  · intro h
    have hs := serialize_eq_containsNative e
    rw [h] at hs
    simp only [if_true] at hs
    exact ⟨hs, by simp [evaluate_remotely, hs]⟩

/-- C6 witness: at the concrete tree `Native(obj)` (which contains a
`Native`), serialisation fails with `NotSerializableError` and the remote
path declines with `NotRemotelyEvaluableError`, so `evaluate` runs the
local evaluator. -/
theorem c6_witness :
    containsNative (.Native (.obj 0)) = true ∧
    (serialize (.Native (.obj 0)) = .error .notSerializable ∧
     evaluate_remotely noRemote (.Native (.obj 0)) = .error .notRemotelyEvaluable) ∧
    evaluate noRemote anyKeyEq 1 [] (.Native (.obj 0)) =
      evaluate_locally noRemote anyKeyEq 0 [] (.Native (.obj 0)) :=
  ⟨rfl,
   (c6_evaluate_remote_first_and_native_declines noRemote anyKeyEq 0 [] (.Native (.obj 0))).2 rfl,
   rfl⟩

/-- C7: locally evaluating `Conditional(c, t, f)` first evaluates `c`; if
the result is not a `Boolean` instance it raises `TypeError`; otherwise it
evaluates exactly the branch selected by the condition's value — the result
is that branch's evaluation, independent of the other branch — and an
exception from the condition propagates. -/
theorem c7_conditional_semantics (oracle : Exp → Except PyErr Exp)
    (keyEq : Exp → Exp → Bool) (fuel : Nat) (env : List (String × HostObj))
    (c t f : Exp) :
    (∀ b : Bool, evaluate_locally oracle keyEq fuel env c = .ok (.expr (.Boolean b)) →
      evaluate_locally oracle keyEq (fuel + 1) env (.Conditional c t f) =
        evaluate_locally oracle keyEq fuel env (if b then t else f)) ∧
    (∀ v : HostObj, evaluate_locally oracle keyEq fuel env c = .ok v →
      isBooleanObj v = false →
      evaluate_locally oracle keyEq (fuel + 1) env (.Conditional c t f) =
        .error .typeError) ∧
    (∀ err : PyErr, evaluate_locally oracle keyEq fuel env c = .error err →
      evaluate_locally oracle keyEq (fuel + 1) env (.Conditional c t f) = .error err) := by
  refine ⟨?_, ?_, ?_⟩
  · intro b hb
    cases b <;> simp [evaluate_locally, hb, Bind.bind, Except.bind]
  · intro v hv hnb
    rcases v with ee | _
    · cases ee <;> simp_all [evaluate_locally, isBooleanObj, Bind.bind, Except.bind]
    · simp [evaluate_locally, hv, Bind.bind, Except.bind]
  · intro err herr
    simp [evaluate_locally, herr, Bind.bind, Except.bind]

/-- C7 witness: with the condition `Boolean(True)`, the conditional
evaluates to the evaluation of its `on_true` branch. -/
theorem c7_witness :
    evaluate_locally noRemote anyKeyEq 2 []
        (.Conditional (.Boolean true) (.Number 7) (.Number 8)) =
      evaluate_locally noRemote anyKeyEq 1 [] (.Number 7) :=
  (c7_conditional_semantics noRemote anyKeyEq 1 [] (.Boolean true) (.Number 7) (.Number 8)).1
    true rfl

/-- C8 counterexample: two predecessors whose contributing stacks are
`[String("x")]` and `[String("x")]` — element-wise equal as QIR trees but
built from two distinct `String` objects.  Reconciliation raises
`PredecessorStacksError` instead of adopting the (tree-equal) stack,
because the `stacks[0] != stack` comparison is object identity. -/
theorem c8_structural_equality_counterexample :
    structEqList
        (contribStack ⟨.otherBlock, "", [.String 0 "x"]⟩ .normal)
        (contribStack ⟨.otherBlock, "", [.String 1 "x"]⟩ .normal) = true ∧
    blockInitialStack
        [(⟨.otherBlock, "", [.String 0 "x"]⟩, .normal),
         (⟨.otherBlock, "", [.String 1 "x"]⟩, .normal)] [] =
      .error .predecessorStacks := by
  refine ⟨rfl, rfl⟩

/-- C8 amended: a block with no predecessors uses the supplied
`starting_stack`; a block with predecessors obtains the first contributing
stack as its initial stack when every other contributing stack is
element-wise *identical* (Python `==` on `Expression` instances is object
identity), and raises `PredecessorStacksError` as soon as some contributing
stack differs. -/
theorem c8_reconciliation (preds : List (PredBlock × Edge))
    (starting_stack : List PExp) :
    (preds = [] → blockInitialStack preds starting_stack = .ok starting_stack) ∧
    (∀ s0 rest, preds.map (fun pe => contribStack pe.1 pe.2) = s0 :: rest →
      ((∀ s ∈ rest, pyListEq s0 s = true) →
        blockInitialStack preds starting_stack = .ok s0) ∧
      ((∃ s ∈ rest, pyListEq s0 s = false) →
        blockInitialStack preds starting_stack = .error .predecessorStacks)) := by
  constructor
  · intro h; subst h; rfl
  · intro s0 rest hmap
    constructor
    · intro hall
      have hany : (rest.any fun s => !pyListEq s0 s) = false := by
        rw [Bool.eq_false_iff]
        intro htrue
        rw [List.any_eq_true] at htrue
        obtain ⟨s, hs, hps⟩ := htrue
        rw [hall s hs] at hps
        simp at hps
      simp [blockInitialStack, hmap, hany]
    · rintro ⟨s, hs, hfalse⟩
      have hany : (rest.any fun s => !pyListEq s0 s) = true := by
        rw [List.any_eq_true]
        exact ⟨s, hs, by simp [hfalse]⟩
      simp [blockInitialStack, hmap, hany]

/-- C8 witness: two predecessors whose stacks hold the *same* `String`
object (same id) reconcile, and the block adopts that stack. -/
theorem c8_witness :
    blockInitialStack [(⟨.otherBlock, "", [.String 5 "x"]⟩, .normal),
        (⟨.otherBlock, "", [.String 5 "x"]⟩, .normal)] [] =
      .ok [.String 5 "x"] :=
  ((c8_reconciliation
      [(⟨.otherBlock, "", [.String 5 "x"]⟩, .normal),
       (⟨.otherBlock, "", [.String 5 "x"]⟩, .normal)] []).2
    [.String 5 "x"] [[.String 5 "x"]] rfl).1
    (by intro s hs; simp at hs; subst hs; rfl)

/-- C9 counterexample: `Number("a")` fails with `TypeError` (not with the
`ShapeError` the claim names — no `ShapeError` class exists anywhere in the
source), and `Number()` (wrong arity) fails with `AttributeError`, because
formatting the intended `TypeError` message evaluates `self.__name__`,
which instances do not have. -/
theorem c9_shapeError_counterexample :
    constructExpr .Number [.str "a"] = .error .typeError ∧
    (Except.error PyErr.typeError : Except PyErr Exp) ≠ .error .shapeError ∧
    constructExpr .Number [] = .error .attributeError := by
  refine ⟨rfl, by simp, rfl⟩

/-- C9 amended: constructing a variant with an argument that fails its
field's `isinstance` check raises `TypeError`; constructing with a wrong
number of arguments raises `AttributeError` (the arity branch's error
message accesses the missing `self.__name__`); and a successfully
constructed node necessarily passed the arity check and every per-field
shape check. -/
theorem c9_construction_shape_checks (v : Variant) (args : List Arg) :
    (∀ e : Exp, constructExpr v args = .ok e →
      args.length = (fieldsOf v).length ∧
      ((args.zip (fieldsOf v)).all fun p => isInst p.1 p.2) = true) ∧
    (args.length ≠ (fieldsOf v).length →
      constructExpr v args = .error .attributeError) ∧
    (args.length = (fieldsOf v).length →
      ((args.zip (fieldsOf v)).all fun p => isInst p.1 p.2) = false →
      constructExpr v args = .error .typeError) := by
  refine ⟨?_, ?_, ?_⟩
  · intro e he
    by_cases h1 : args.length = (fieldsOf v).length
    · by_cases h2 : ((args.zip (fieldsOf v)).all fun p => isInst p.1 p.2) = true
      · exact ⟨h1, h2⟩
      · have hc : constructExpr v args = .error .typeError := by
          unfold constructExpr
          rw [if_neg (by simp [h1]), if_neg h2]
        rw [hc] at he
        exact absurd he (by simp)
    · have hc : constructExpr v args = .error .attributeError := by
        unfold constructExpr
        rw [if_pos h1]
      rw [hc] at he
      exact absurd he (by simp)
  · intro h1
    unfold constructExpr
    rw [if_pos h1]
  · intro h1 h2
    unfold constructExpr
    rw [if_neg (by simp [h1]), if_neg (by simp [h2])]

/-- C9 witness: `Double(3)` fails the `float` shape check with `TypeError`
(an `int` is not an instance of `float`), and `Null(0)` fails the arity
check with `AttributeError`. -/
theorem c9_witness :
    constructExpr .Double [.int 3] = .error .typeError ∧
    constructExpr .Null [.int 0] = .error .attributeError :=
  ⟨(c9_construction_shape_checks .Double [.int 3]).2.2 rfl rfl,
   (c9_construction_shape_checks .Null [.int 0]).2.1 (by decide)⟩

/-- C10: expression comparison is object identity.  A `TupleDestr` whose
lookup key is a *separately constructed* `String` — structurally equal to
the stored key but a different object — falls through to `Null` (the
class), while the *very same* `String` object finds the stored value; and
predecessor-stack reconciliation over two structurally equal but separately
constructed stacks raises `PredecessorStacksError`. -/
theorem c10_identity_semantics (i1 i2 ic it iv idd : Nat) (s sv : String)
    (ctr : Nat) (env : List (String × POb)) (j1 j2 : Nat) (t : String)
    (h12 : i1 ≠ i2) (hj : j1 ≠ j2) :
    structEq (.String i1 s) (.String i2 s) = true ∧
    pevaluate_locally ctr env
        (.TupleDestr idd (.TupleCons ic (.String i1 s) (.String iv sv) (.TupleNil it))
          (.String i2 s)) = .ok (.nullClass, ctr + 1) ∧
    pevaluate_locally ctr env
        (.TupleDestr idd (.TupleCons ic (.String i1 s) (.String iv sv) (.TupleNil it))
          (.String i1 s)) = .ok (.expr (.String iv sv), ctr + 1) ∧
    structEqList [PExp.String j1 t] [PExp.String j2 t] = true ∧
    blockInitialStack
        [(⟨.otherBlock, "", [.String j1 t]⟩, .normal),
         (⟨.otherBlock, "", [.String j2 t]⟩, .normal)] [] =
      .error .predecessorStacks := by
  have hb12 : (i1 == i2) = false := beq_eq_false_iff_ne.mpr h12
  have hbj : (j1 == j2) = false := beq_eq_false_iff_ne.mpr hj
  refine ⟨by simp [structEq], ?_, ?_, by simp [structEqList, structEq], ?_⟩
  · simp [pevaluate_locally, ptraverse, pyEqE, PExp.oid, pAsExpr, hb12,
      Bind.bind, Except.bind, pure, Except.pure]
  · simp [pevaluate_locally, ptraverse, pyEqE, PExp.oid, pAsExpr,
      Bind.bind, Except.bind, pure, Except.pure]
  · simp [blockInitialStack, contribStack, pyListEq, pyEqE, PExp.oid, hbj]

/-- C10 witness: at concrete distinct object ids, the structurally equal
but distinct key misses (yielding `Null`), the identical key hits, and the
structurally equal but distinct stacks fail reconciliation. -/
theorem c10_witness :
    pevaluate_locally 10 []
        (.TupleDestr 6 (.TupleCons 3 (.String 1 "a") (.String 5 "v") (.TupleNil 4))
          (.String 2 "a")) = .ok (.nullClass, 11) ∧
    pevaluate_locally 10 []
        (.TupleDestr 6 (.TupleCons 3 (.String 1 "a") (.String 5 "v") (.TupleNil 4))
          (.String 1 "a")) = .ok (.expr (.String 5 "v"), 11) ∧
    blockInitialStack
        [(⟨.otherBlock, "", [.String 7 "x"]⟩, .normal),
         (⟨.otherBlock, "", [.String 8 "x"]⟩, .normal)] [] =
      .error .predecessorStacks := by
  have h := c10_identity_semantics 1 2 3 4 5 6 "a" "v" 10 [] 7 8 "x"
    (by decide) (by decide)
  exact ⟨h.2.1, h.2.2.1, h.2.2.2.2⟩
